import Mathlib

/-!
Verification of the QA-Hub backend (src/backend/main.py) against its
specification.  The SQLite tables are modelled as Lean lists of rows with an
explicit auto-increment counter; the endpoint handlers become pure functions
on that state.  Python floats are modelled by rationals, and Python's
banker's rounding by a round-half-even function on rationals.
-/

namespace QAHub

/-- A row of the `tests` table: id, name, status, duration (milliseconds). -/
structure TestRow where
  id : Nat
  name : String
  status : String
  duration : Nat
  deriving Repr, DecidableEq

/-- The `tests` table together with its AUTOINCREMENT counter
(SQLite assigns ids 1, 2, ... in insertion order). -/
structure TestsTable where
  rows : List TestRow
  nextId : Nat
  deriving Repr, DecidableEq

/-- The `TestStats` response model of `GET /api/stats`. -/
structure TestStats where
  totalTests : Nat
  passed : Nat
  failed : Nat
  passRate : ℚ
  avgDuration : ℚ
  coverage : ℚ
  deriving Repr, DecidableEq

/-- Round to the nearest integer, ties to the even integer — the rounding
Python's `round` performs (banker's rounding). -/
def roundHalfEven (q : ℚ) : ℤ :=
  if q - (⌊q⌋ : ℚ) < 1/2 then ⌊q⌋
  else if (1 : ℚ)/2 < q - (⌊q⌋ : ℚ) then ⌊q⌋ + 1
  else if ⌊q⌋ % 2 = 0 then ⌊q⌋ else ⌊q⌋ + 1

/-- Python's `round(q, d)`: round to `d` decimal places. -/
def roundTo (d : Nat) (q : ℚ) : ℚ :=
  ((roundHalfEven (q * (10 : ℚ) ^ d) : ℤ) : ℚ) / (10 : ℚ) ^ d

/-- `SELECT COUNT(*) FROM tests WHERE status = s`. -/
def countStatus (s : String) (rows : List TestRow) : Nat :=
  rows.countP (fun r => r.status == s)

/-- Sum of the `duration` column (numerator of SQL `AVG(duration)`). -/
def sumDuration (rows : List TestRow) : Nat :=
  (rows.map (fun r => r.duration)).sum

/-- `GET /api/stats` (`get_stats` in main.py): COUNT of all rows, COUNT where
status is passed / failed, `AVG(duration)` (NULL coalesced to 0 by `or 0`),
then `passRate = round(passed/total*100, 1) if total else 0` and
`avgDuration = round(avg/1000, 2)`; coverage is the constant 85.0. -/
def get_stats (t : TestsTable) : TestStats :=
  let total := t.rows.length
  let passed := countStatus ("passed") t.rows
  let failed := countStatus ("failed") t.rows
  let avg : ℚ := if total = 0 then 0 else (sumDuration t.rows : ℚ) / (total : ℚ)
  { totalTests := total
    passed := passed
    failed := failed
    passRate := if total = 0 then 0 else roundTo 1 ((passed : ℚ) / (total : ℚ) * 100)
    avgDuration := roundTo 2 (avg / 1000)
    coverage := 85 }

/-- A fresh, empty `tests` table (AUTOINCREMENT starts at 1). -/
def emptyTests : TestsTable := { rows := [], nextId := 1 }

/-- The one-row state of the spec's worked example:
tests = [("Login", passed, 245 ms)]. -/
def loginTable : TestsTable :=
  { rows := [{ id := 1, name := "Login", status := "passed", duration := 245 }]
    nextId := 2 }

/-- The `TestResult`/`RunTestsResponse` model of `POST /api/tests/run`. -/
structure RunTestsResponse where
  success : Bool
  message : String
  results : List TestRow
  deriving Repr, DecidableEq

/-- `SELECT DISTINCT name FROM tests`, modelled as first-occurrence order
(the source relies on the storage engine's unspecified order). -/
def dedupFirstAux (seen : List String) : List String → List String
  | [] => []
  | x :: xs => if x ∈ seen then dedupFirstAux seen xs else x :: dedupFirstAux (x :: seen) xs

/-- The distinct test names of the table, first occurrence first. -/
def distinctNames (rows : List TestRow) : List String :=
  dedupFirstAux [] (rows.map (fun r => r.name))

/-- The fallback list `["Test 1", "Test 2", "Test 3"]` used by `run_tests`
when no name is recorded (`... or [...]` in main.py). -/
def defaultNames : List String := [("Test 1"), ("Test 2"), ("Test 3")]

/-- One loop iteration of `run_tests`, given the pair drawn from the random
source for this iteration: `status = "passed" if random.random() > 0.1 else
"failed"`, duration `randint(100, 600)` when passed (modelled as
`100 + n % 501`) and `randint(3000, 5000)` when failed (`3000 + n % 2001`),
with the freshly assigned row id. -/
def mkRow (rowId : Nat) (nm : String) (p : ℚ × Nat) : TestRow :=
  { id := rowId
    name := nm
    status := if p.1 > 1/10 then ("passed") else ("failed")
    duration := if p.1 > 1/10 then 100 + p.2 % 501 else 3000 + p.2 % 2001 }

/-- The `for name in names[:10]` loop of `run_tests`: each iteration draws the
pair `rng k` from the random stream, INSERTs the new row and appends the
created record to `results`. -/
def runLoop (rng : Nat → ℚ × Nat) : List String → Nat → TestsTable → List TestRow × TestsTable
  | [], _, t => ([], t)
  | nm :: rest, k, t =>
    let row := mkRow t.nextId nm (rng k)
    let rec_result := runLoop rng rest (k + 1) { rows := t.rows ++ [row], nextId := t.nextId + 1 }
    (row :: rec_result.1, rec_result.2)

/-- The rows the `run_tests` loop creates, detached from table threading:
row `i` is built from draw `rng (k+i)` with id `nid + i`.  Used to state
closed forms of `runLoop`. -/
def genList (rng : Nat → ℚ × Nat) : List String → Nat → Nat → List TestRow
  | [], _, _ => []
  | nm :: rest, k, nid => mkRow nid nm (rng k) :: genList rng rest (k + 1) (nid + 1)

/-- The summary string `f"Executed {n} tests: {p} passed, {f} failed"`. -/
def mkMessage (total p f : Nat) : String :=
  "Executed " ++ toString total ++ " tests: " ++ toString p ++ " passed, " ++
    toString f ++ " failed"

/-- `POST /api/tests/run` (`run_tests` in main.py): select the distinct
names (falling back to `defaultNames` when none), run the loop over the
first 10, commit, and report the pass/fail counts. -/
def run_tests (t : TestsTable) (rng : Nat → ℚ × Nat) : RunTestsResponse × TestsTable :=
  let names0 := distinctNames t.rows
  let names := if names0 = [] then defaultNames else names0
  let out := runLoop rng (names.take 10) 0 t
  let passedCount := countStatus ("passed") out.1
  ({ success := true
     message := mkMessage out.1.length passedCount (out.1.length - passedCount)
     results := out.1 }, out.2)

/-- A row of the `bugs` table. -/
structure BugRow where
  id : Nat
  title : String
  description : String
  severity : String
  status : String
  assignee : Option String
  deriving Repr, DecidableEq

/-- The `bugs` table with its AUTOINCREMENT counter. -/
structure BugsTable where
  rows : List BugRow
  nextId : Nat
  deriving Repr, DecidableEq

/-- A row of the `test_cases` table. -/
structure CaseRow where
  id : Nat
  title : String
  description : String
  steps : String
  expected_result : String
  priority : String
  status : String
  deriving Repr, DecidableEq

/-- The `test_cases` table with its AUTOINCREMENT counter. -/
structure CasesTable where
  rows : List CaseRow
  nextId : Nat
  deriving Repr, DecidableEq

/-- A row of the `automation_reports` table. -/
structure ReportRow where
  id : Nat
  suite_name : String
  total_tests : Nat
  passed : Nat
  failed : Nat
  duration : Nat
  environment : String
  deriving Repr, DecidableEq

/-- The `automation_reports` table with its AUTOINCREMENT counter. -/
structure ReportsTable where
  rows : List ReportRow
  nextId : Nat
  deriving Repr, DecidableEq

/-- Outcome of a delete handler: either the confirmation payload or the
HTTP 404 raised when `cur.rowcount == 0`. -/
inductive DeleteOutcome where
  | ok (message : String)
  | notFound (detail : String)
  deriving Repr, DecidableEq

/-- `DELETE /api/bugs/{bug_id}` (`delete_bug`): run the SQL DELETE; when it
touched no row, close without commit (so the table is unchanged) and raise
404 "Bug not found"; otherwise commit and confirm. -/
def delete_bug (t : BugsTable) (bugId : Nat) : DeleteOutcome × BugsTable :=
  let rowcount := (t.rows.filter (fun r => r.id == bugId)).length
  if rowcount = 0 then (DeleteOutcome.notFound ("Bug not found"), t)
  else (DeleteOutcome.ok ("Bug " ++ toString bugId ++ " deleted"),
        { rows := t.rows.filter (fun r => r.id != bugId), nextId := t.nextId })

/-- `DELETE /api/test-cases/{case_id}` (`delete_test_case`): same shape as
`delete_bug`, with detail "Test case not found". -/
def delete_test_case (t : CasesTable) (caseId : Nat) : DeleteOutcome × CasesTable :=
  let rowcount := (t.rows.filter (fun r => r.id == caseId)).length
  if rowcount = 0 then (DeleteOutcome.notFound ("Test case not found"), t)
  else (DeleteOutcome.ok ("Test case " ++ toString caseId ++ " deleted"),
        { rows := t.rows.filter (fun r => r.id != caseId), nextId := t.nextId })

/-- Append one row to the `tests` table, assigning the next id
(the INSERT of the seeding path). -/
def insertTestRow (t : TestsTable) (nm st : String) (dur : Nat) : TestsTable :=
  { rows := t.rows ++ [{ id := t.nextId, name := nm, status := st, duration := dur }]
    nextId := t.nextId + 1 }

/-- The five literal seed rows of the `tests` table in `init_db`. -/
def seed_tests_data : List (String × String × Nat) :=
  [(("Login with valid credentials"), ("passed"), 245),
   (("Navigate to dashboard"), ("passed"), 312),
   (("Search functionality"), ("passed"), 189),
   (("User profile update"), ("passed"), 267),
   (("Logout flow"), ("passed"), 156)]

/-- The `tests` branch of `init_db`: when `SELECT COUNT(*) FROM tests` is 0,
`executemany` inserts the five seed rows. -/
def seedTests (t : TestsTable) : TestsTable :=
  if t.rows.length = 0 then
    seed_tests_data.foldl (fun a x => insertTestRow a x.1 x.2.1 x.2.2) t
  else t

/-- Append one row to the `bugs` table, assigning the next id. -/
def insertBugRow (t : BugsTable) (ti de se st : String) (asg : Option String) : BugsTable :=
  { rows := t.rows ++
      [{ id := t.nextId, title := ti, description := de, severity := se,
         status := st, assignee := asg }]
    nextId := t.nextId + 1 }

/-- The two literal seed rows of the `bugs` table in `init_db`. -/
def seed_bugs_data : List (String × String × String × String × Option String) :=
  [(("Login button not responsive on mobile"), ("Button click not registering on iOS"),
    ("high"), ("open"), some ("John")),
   (("Search returns empty results"), ("Search returns no results for valid queries"),
    ("critical"), ("in-progress"), some ("Jane"))]

/-- The `bugs` branch of `init_db`. -/
def seedBugs (t : BugsTable) : BugsTable :=
  if t.rows.length = 0 then
    seed_bugs_data.foldl (fun a x => insertBugRow a x.1 x.2.1 x.2.2.1 x.2.2.2.1 x.2.2.2.2) t
  else t

/-- Append one row to the `test_cases` table, assigning the next id. -/
def insertCaseRow (t : CasesTable) (ti de st ex pr sta : String) : CasesTable :=
  { rows := t.rows ++
      [{ id := t.nextId, title := ti, description := de, steps := st,
         expected_result := ex, priority := pr, status := sta }]
    nextId := t.nextId + 1 }

/-- The two literal seed rows of the `test_cases` table in `init_db`. -/
def seed_cases_data : List (String × String × String × String × String × String) :=
  [(("Login Test"), ("Verify login works"),
    ("1. Go to login\n2. Enter credentials\n3. Click login"), ("User logged in"),
    ("p1"), ("active")),
   (("Search Test"), ("Verify search works"),
    ("1. Go to search\n2. Enter query\n3. Click search"), ("Results displayed"),
    ("p2"), ("active"))]

/-- The `test_cases` branch of `init_db`. -/
def seedCases (t : CasesTable) : CasesTable :=
  if t.rows.length = 0 then
    seed_cases_data.foldl
      (fun a x => insertCaseRow a x.1 x.2.1 x.2.2.1 x.2.2.2.1 x.2.2.2.2.1 x.2.2.2.2.2) t
  else t

/-- The whole database: the four tables of §3. -/
structure DB where
  tests : TestsTable
  bugs : BugsTable
  cases : CasesTable
  reports : ReportsTable
  deriving Repr, DecidableEq

/-- `init_db` in main.py: create the tables if absent (a no-op on the model)
and seed each of `tests`, `bugs`, `test_cases` when its row count is 0;
`automation_reports` is never seeded. -/
def init_db (db : DB) : DB :=
  { db with
    tests := seedTests db.tests
    bugs := seedBugs db.bugs
    cases := seedCases db.cases }

/-- A freshly created database: four empty tables. -/
def emptyDB : DB :=
  { tests := { rows := [], nextId := 1 }
    bugs := { rows := [], nextId := 1 }
    cases := { rows := [], nextId := 1 }
    reports := { rows := [], nextId := 1 } }

/-- The HTTP surface of main.py: every (method, path) pair registered on the
FastAPI `app`, in source order. -/
def routes : List (String × String) :=
  [(("GET"), ("/api/health")),
   (("GET"), ("/api/stats")),
   (("GET"), ("/api/tests")),
   (("POST"), ("/api/tests/run")),
   (("GET"), ("/api/bugs")),
   (("POST"), ("/api/bugs")),
   (("DELETE"), ("/api/bugs/{bug_id}")),
   (("GET"), ("/api/test-cases")),
   (("POST"), ("/api/test-cases")),
   (("DELETE"), ("/api/test-cases/{case_id}")),
   (("GET"), ("/api/reports")),
   (("POST"), ("/api/reports")),
   (("GET"), ("/"))]

/-- The `tests`-table states reachable through the program's own writers:
the table starts empty, `init_db` seeds it, and `run_tests` appends to it
(no other handler writes to `tests`). -/
inductive ReachableTests : TestsTable → Prop where
  | empty : ReachableTests { rows := [], nextId := 1 }
  | seed : ∀ t, ReachableTests t → ReachableTests (seedTests t)
  | run : ∀ t rng, ReachableTests t → ReachableTests (run_tests t rng).2

/-- A concrete random stream: every draw is (1/2, 17), so every generated
test passes with duration 117. -/
def rngW : Nat → ℚ × Nat := fun _ => (1/2, 17)

/-- A concrete random stream: every draw is (0, 42), so every generated test
fails with duration 3042. -/
def rngF : Nat → ℚ × Nat := fun _ => (0, 42)

/-- A stream that differs from `rngB10` only from index 10 on. -/
def rngA10 : Nat → ℚ × Nat := fun i => if i < 10 then (1/2, 5) else (0, 0)

/-- A stream that differs from `rngA10` only from index 10 on. -/
def rngB10 : Nat → ℚ × Nat := fun i => if i < 10 then (1/2, 5) else (1, 1)

/-- A two-row tests table used to instantiate the stats theorems. -/
def mixedTable : TestsTable :=
  { rows := [{ id := 1, name := "A", status := "passed", duration := 100 },
             { id := 2, name := "B", status := "failed", duration := 3000 }]
    nextId := 3 }

/-- A one-row bugs table used to instantiate the delete theorems. -/
def bugsW : BugsTable :=
  { rows := [{ id := 1, title := "t", description := "d", severity := "high",
               status := "open", assignee := some ("John") }]
    nextId := 2 }

/-- A one-row test_cases table used to instantiate the delete theorems. -/
def casesW : CasesTable :=
  { rows := [{ id := 1, title := "t", description := "d", steps := "s",
               expected_result := "e", priority := "p1", status := "active" }]
    nextId := 2 }


lemma floor_add_half (n : ℤ) : ⌊(n : ℚ) + 1/2⌋ = n := by
  rw [Int.floor_eq_iff]
  constructor
  · linarith
  · linarith

lemma roundHalfEven_intCast (n : ℤ) : roundHalfEven (n : ℚ) = n := by
  unfold roundHalfEven
  rw [Int.floor_intCast]
  rw [if_pos (by norm_num)]

lemma roundHalfEven_tie_even (n : ℤ) (hn : n % 2 = 0) :
    roundHalfEven ((n : ℚ) + 1/2) = n := by
  unfold roundHalfEven
  rw [floor_add_half]
  have h : (n : ℚ) + 1/2 - n = 1/2 := by ring
  rw [h]
  norm_num [hn]

lemma roundTo_one_100 : roundTo 1 (100 : ℚ) = 100 := by
  unfold roundTo
  have h : (100 : ℚ) * 10 ^ 1 = ((1000 : ℤ) : ℚ) := by norm_num
  rw [h, roundHalfEven_intCast]
  norm_num

lemma roundTo_two_245 : roundTo 2 ((245 : ℚ) / 1000) = 6 / 25 := by
  unfold roundTo
  have h : (245 : ℚ) / 1000 * 10 ^ 2 = ((24 : ℤ) : ℚ) + 1/2 := by norm_num
  rw [h, roundHalfEven_tie_even 24 (by decide)]
  norm_num

lemma roundTo_two_zero : roundTo 2 (0 : ℚ) = 0 := by
  unfold roundTo
  have h : (0 : ℚ) * 10 ^ 2 = ((0 : ℤ) : ℚ) := by norm_num
  rw [h, roundHalfEven_intCast]
  norm_num

lemma get_stats_login :
    get_stats loginTable =
      { totalTests := 1, passed := 1, failed := 0, passRate := 100,
        avgDuration := 6 / 25, coverage := 85 } := by
  have h1 : ((1 : ℚ)) / (1 : ℚ) * 100 = 100 := by norm_num
  simp [get_stats, loginTable, countStatus, sumDuration, List.countP_cons, h1,
    roundTo_one_100, roundTo_two_245]

lemma get_stats_empty :
    get_stats emptyTests =
      { totalTests := 0, passed := 0, failed := 0, passRate := 0,
        avgDuration := 0, coverage := 85 } := by
  have h2 : ((0 : ℚ)) / 1000 = 0 := by norm_num
  simp [get_stats, emptyTests, countStatus, sumDuration, h2, roundTo_two_zero]



lemma countStatus_passed_add_failed (rows : List TestRow)
    (h : ∀ r ∈ rows, r.status = "passed" ∨ r.status = "failed") :
    countStatus ("passed") rows + countStatus ("failed") rows = rows.length := by
  induction rows with
  | nil => rfl
  | cons r rest ih =>
    have hr := h r (List.mem_cons_self r rest)
    have ih2 := ih (fun x hx => h x (List.mem_cons_of_mem r hx))
    rcases hr with hp | hf
    · have c1 : ((("passed" : String) == ("passed" : String))) = true := by decide
      have c2 : ((("passed" : String) == ("failed" : String))) = false := by decide
      simp only [countStatus, List.countP_cons, hp, c1, c2, if_true, if_false,
        List.length_cons] at *
      simp at *
      omega
    · have c1 : ((("failed" : String) == ("passed" : String))) = false := by decide
      have c2 : ((("failed" : String) == ("failed" : String))) = true := by decide
      simp only [countStatus, List.countP_cons, hf, c1, c2, if_true, if_false,
        List.length_cons] at *
      simp at *
      omega

lemma runLoop_eq (rng : Nat → ℚ × Nat) :
    ∀ (names : List String) (k : Nat) (t : TestsTable),
      runLoop rng names k t =
        (genList rng names k t.nextId,
         { rows := t.rows ++ genList rng names k t.nextId,
           nextId := t.nextId + names.length }) := by
  intro names
  induction names with
  | nil => intro k t; simp [runLoop, genList]
  | cons nm rest ih =>
    intro k t
    simp only [runLoop, genList, ih, List.length_cons, Prod.mk.injEq,
      TestsTable.mk.injEq, List.append_assoc, List.singleton_append, true_and,
      and_true, eq_self_iff_true]
    omega

lemma genList_length (rng : Nat → ℚ × Nat) :
    ∀ (names : List String) (k nid : Nat),
      (genList rng names k nid).length = names.length := by
  intro names
  induction names with
  | nil => intro k nid; rfl
  | cons nm rest ih => intro k nid; simp [genList, ih]

lemma genList_get (rng : Nat → ℚ × Nat) :
    ∀ (names : List String) (k nid i : Nat)
      (h : i < (genList rng names k nid).length) (h2 : i < names.length),
      (genList rng names k nid).get ⟨i, h⟩ =
        mkRow (nid + i) (names.get ⟨i, h2⟩) (rng (k + i)) := by
  intro names
  induction names with
  | nil => intro k nid i h h2; simp [genList] at h
  | cons nm rest ih =>
    intro k nid i h h2
    cases i with
    | zero => simp [genList]
    | succ j =>
      have e : nid + (j + 1) = nid + 1 + j := by omega
      have e2 : k + (j + 1) = k + 1 + j := by omega
      have hj : j < (genList rng rest (k + 1) (nid + 1)).length := by
        have hl : (genList rng (nm :: rest) k nid).length =
            (genList rng rest (k + 1) (nid + 1)).length + 1 := by
          simp [genList]
        omega
      have hj2 : j < rest.length := by
        simp only [List.length_cons] at h2
        omega
      simp only [genList, List.get_cons_succ]
      rw [ih (k + 1) (nid + 1) j hj hj2, e, e2]

lemma genList_status (rng : Nat → ℚ × Nat) :
    ∀ (names : List String) (k nid : Nat) (r : TestRow),
      r ∈ genList rng names k nid →
      r.status = "passed" ∨ r.status = "failed" := by
  intro names
  induction names with
  | nil => intro k nid r hr; simp [genList] at hr
  | cons nm rest ih =>
    intro k nid r hr
    rcases List.mem_cons.mp hr with h0 | h1
    · subst h0
      by_cases hc : (rng k).1 > 1/10
      · left
        simp only [mkRow]
        rw [if_pos hc]
      · right
        simp only [mkRow]
        rw [if_neg hc]
    · exact ih (k + 1) (nid + 1) r h1

lemma genList_map_name (rng : Nat → ℚ × Nat) :
    ∀ (names : List String) (k nid : Nat),
      (genList rng names k nid).map (fun r => r.name) = names := by
  intro names
  induction names with
  | nil => intro k nid; rfl
  | cons nm rest ih => intro k nid; simp [genList, mkRow, ih]

lemma genList_congr (rng1 rng2 : Nat → ℚ × Nat) :
    ∀ (names : List String) (k nid : Nat),
      (∀ i, i < names.length → rng1 (k + i) = rng2 (k + i)) →
      genList rng1 names k nid = genList rng2 names k nid := by
  intro names
  induction names with
  | nil => intro k nid _; rfl
  | cons nm rest ih =>
    intro k nid h
    have h0 : rng1 k = rng2 k := by
      have hk := h 0 (by simp)
      simpa using hk
    have hrest : ∀ i, i < rest.length → rng1 (k + 1 + i) = rng2 (k + 1 + i) := by
      intro i hi
      have hki := h (i + 1) (by simp only [List.length_cons]; omega)
      have e : k + (i + 1) = k + 1 + i := by omega
      rw [e] at hki
      exact hki
    simp [genList, h0, ih (k + 1) (nid + 1) hrest]



lemma seedTests_of_ne (t : TestsTable) (h : ¬ t.rows.length = 0) : seedTests t = t := by
  simp [seedTests, h]

lemma seedTests_rows_len (t : TestsTable) (h : t.rows.length = 0) :
    (seedTests t).rows.length = 5 := by
  have hrows : t.rows = [] := List.length_eq_zero.mp h
  obtain ⟨rows, nid⟩ := t
  simp only at hrows
  subst hrows
  simp [seedTests, seed_tests_data, insertTestRow]

lemma seedTests_idem (t : TestsTable) : seedTests (seedTests t) = seedTests t := by
  by_cases h : t.rows.length = 0
  · exact seedTests_of_ne (seedTests t) (by rw [seedTests_rows_len t h]; omega)
  · rw [seedTests_of_ne t h, seedTests_of_ne t h]

lemma seedBugs_of_ne (t : BugsTable) (h : ¬ t.rows.length = 0) : seedBugs t = t := by
  simp [seedBugs, h]

lemma seedBugs_rows_len (t : BugsTable) (h : t.rows.length = 0) :
    (seedBugs t).rows.length = 2 := by
  have hrows : t.rows = [] := List.length_eq_zero.mp h
  obtain ⟨rows, nid⟩ := t
  simp only at hrows
  subst hrows
  simp [seedBugs, seed_bugs_data, insertBugRow]

lemma seedBugs_idem (t : BugsTable) : seedBugs (seedBugs t) = seedBugs t := by
  by_cases h : t.rows.length = 0
  · exact seedBugs_of_ne (seedBugs t) (by rw [seedBugs_rows_len t h]; omega)
  · rw [seedBugs_of_ne t h, seedBugs_of_ne t h]

lemma seedCases_of_ne (t : CasesTable) (h : ¬ t.rows.length = 0) : seedCases t = t := by
  simp [seedCases, h]

lemma seedCases_rows_len (t : CasesTable) (h : t.rows.length = 0) :
    (seedCases t).rows.length = 2 := by
  have hrows : t.rows = [] := List.length_eq_zero.mp h
  obtain ⟨rows, nid⟩ := t
  simp only at hrows
  subst hrows
  simp [seedCases, seed_cases_data, insertCaseRow]

lemma seedCases_idem (t : CasesTable) : seedCases (seedCases t) = seedCases t := by
  by_cases h : t.rows.length = 0
  · exact seedCases_of_ne (seedCases t) (by rw [seedCases_rows_len t h]; omega)
  · rw [seedCases_of_ne t h, seedCases_of_ne t h]

lemma init_db_idem (db : DB) : init_db (init_db db) = init_db db := by
  obtain ⟨t, b, c, r⟩ := db
  simp [init_db, seedTests_idem, seedBugs_idem, seedCases_idem]

lemma run_tests_results_eq (t : TestsTable) (rng : Nat → ℚ × Nat) :
    (run_tests t rng).1.results =
      genList rng
        ((if distinctNames t.rows = [] then defaultNames else distinctNames t.rows).take 10)
        0 t.nextId ∧
    (run_tests t rng).2.rows = t.rows ++ (run_tests t rng).1.results ∧
    (run_tests t rng).2.nextId = t.nextId + (run_tests t rng).1.results.length := by
  simp only [run_tests, runLoop_eq]
  refine ⟨trivial, trivial, ?_⟩
  simp [genList_length]

lemma run_tests_status_ok (t : TestsTable) (rng : Nat → ℚ × Nat) :
    ∀ r ∈ (run_tests t rng).1.results, r.status = "passed" ∨ r.status = "failed" := by
  intro r hr
  rw [(run_tests_results_eq t rng).1] at hr
  exact genList_status rng _ 0 t.nextId r hr

lemma run_tests_results_length_le (t : TestsTable) (rng : Nat → ℚ × Nat) :
    (run_tests t rng).1.results.length ≤ 10 := by
  rw [(run_tests_results_eq t rng).1, genList_length, List.length_take]
  exact min_le_left _ _

lemma run_tests_message_eq (t : TestsTable) (rng : Nat → ℚ × Nat) :
    (run_tests t rng).1.message =
      mkMessage (run_tests t rng).1.results.length
        (countStatus ("passed") (run_tests t rng).1.results)
        (countStatus ("failed") (run_tests t rng).1.results) := by
  have hsum := countStatus_passed_add_failed (run_tests t rng).1.results
    (run_tests_status_ok t rng)
  simp only [run_tests] at hsum ⊢
  congr 1
  omega

lemma seedTests_status_ok (t : TestsTable)
    (h : ∀ r ∈ t.rows, r.status = "passed" ∨ r.status = "failed") :
    ∀ r ∈ (seedTests t).rows, r.status = "passed" ∨ r.status = "failed" := by
  by_cases h0 : t.rows.length = 0
  · have hrows : t.rows = [] := List.length_eq_zero.mp h0
    obtain ⟨rows, nid⟩ := t
    simp only at hrows
    subst hrows
    intro r hr
    simp [seedTests, seed_tests_data, insertTestRow] at hr
    rcases hr with h1 | h1 | h1 | h1 | h1 <;> (subst h1; left; rfl)
  · rw [seedTests_of_ne t h0]
    exact h

lemma delete_bug_missing (t : BugsTable) (i : Nat) (h : ∀ r ∈ t.rows, r.id ≠ i) :
    delete_bug t i = (DeleteOutcome.notFound ("Bug not found"), t) := by
  have hf : t.rows.filter (fun r => r.id == i) = [] := by
    apply List.filter_eq_nil_iff.mpr
    intro a ha
    simp [h a ha]
  simp [delete_bug, hf]

lemma delete_case_missing (t : CasesTable) (i : Nat) (h : ∀ r ∈ t.rows, r.id ≠ i) :
    delete_test_case t i = (DeleteOutcome.notFound ("Test case not found"), t) := by
  have hf : t.rows.filter (fun r => r.id == i) = [] := by
    apply List.filter_eq_nil_iff.mpr
    intro a ha
    simp [h a ha]
  simp [delete_test_case, hf]



/-- C1: for a tests table whose rows all have status passed or failed
(N passed, M failed), get_stats returns totalTests = N+M, passed = N,
failed = M and passRate = round(N/(N+M)*100, 1) when N+M > 0; on the empty
table it returns all-zero stats. -/
theorem stats_counts (t : TestsTable)
    (h : ∀ r ∈ t.rows, r.status = "passed" ∨ r.status = "failed") :
    (get_stats t).totalTests =
      countStatus ("passed") t.rows + countStatus ("failed") t.rows ∧
    (get_stats t).passed = countStatus ("passed") t.rows ∧
    (get_stats t).failed = countStatus ("failed") t.rows ∧
    (countStatus ("passed") t.rows + countStatus ("failed") t.rows ≠ 0 →
      (get_stats t).passRate =
        roundTo 1 ((countStatus ("passed") t.rows : ℚ) /
          ((countStatus ("passed") t.rows + countStatus ("failed") t.rows : Nat) : ℚ) *
          100)) ∧
    (get_stats emptyTests).totalTests = 0 ∧ (get_stats emptyTests).passed = 0 ∧
    (get_stats emptyTests).failed = 0 ∧ (get_stats emptyTests).passRate = 0 ∧
    (get_stats emptyTests).avgDuration = 0 := by
  have hc := countStatus_passed_add_failed t.rows h
  refine ⟨hc.symm, rfl, rfl, ?_, rfl, rfl, rfl, rfl, by simp [get_stats_empty]⟩
  intro hNM
  have hT : t.rows.length =
      countStatus ("passed") t.rows + countStatus ("failed") t.rows := hc.symm
  show (if t.rows.length = 0 then (0 : ℚ)
        else roundTo 1 ((countStatus ("passed") t.rows : ℚ) / (t.rows.length : ℚ) * 100)) = _
  rw [hT, if_neg hNM]

/-- C1 witness: the theorem instantiated at a two-row table with one passed
and one failed row. -/
theorem stats_counts_witness :
    (∀ r ∈ mixedTable.rows, r.status = "passed" ∨ r.status = "failed") ∧
    (get_stats mixedTable).totalTests =
      countStatus ("passed") mixedTable.rows + countStatus ("failed") mixedTable.rows :=
  ⟨by decide, (stats_counts mixedTable (by decide)).1⟩

/-- C2 counterexample: on the spec's worked example (one row "Login",
passed, 245 ms) the avgDuration computed by get_stats is not the claimed
0.25: `round(0.245, 2)` is 0.24 (the tie at 24.5 rounds to the even 24,
matching CPython, where the double nearest 0.245 lies below the tie). -/
theorem stats_avg_example_not_quarter :
    (get_stats loginTable).avgDuration ≠ 1/4 := by
  rw [get_stats_login]
  norm_num

/-- C2 (amended): avgDuration = round(mean(duration)/1000, 2) on every
non-empty table, and the worked example yields avgDuration 0.24 (= 6/25),
not 0.25, the other fields being as claimed. -/
theorem stats_avg_duration (t : TestsTable) (h : t.rows ≠ []) :
    (get_stats t).avgDuration =
      roundTo 2 ((sumDuration t.rows : ℚ) / (t.rows.length : ℚ) / 1000) ∧
    get_stats loginTable =
      { totalTests := 1, passed := 1, failed := 0, passRate := 100,
        avgDuration := 6/25, coverage := 85 } := by
  constructor
  · have h0 : ¬ t.rows.length = 0 := by simpa [List.length_eq_zero] using h
    show roundTo 2 ((if t.rows.length = 0 then (0 : ℚ)
        else (sumDuration t.rows : ℚ) / (t.rows.length : ℚ)) / 1000) = _
    rw [if_neg h0]
  · exact get_stats_login

/-- C2 witness: the amended theorem instantiated at the worked example. -/
theorem stats_avg_duration_witness :
    loginTable.rows ≠ [] ∧
    (get_stats loginTable).avgDuration =
      roundTo 2 ((sumDuration loginTable.rows : ℚ) / (loginTable.rows.length : ℚ) / 1000) :=
  ⟨by decide, (stats_avg_duration loginTable (by decide)).1⟩

/-- C3: run_tests produces at most 10 results and inserts exactly one row
per result, hence at most 10 rows, whatever the prior state. -/
theorem run_tests_at_most_ten (t : TestsTable) (rng : Nat → ℚ × Nat) :
    (run_tests t rng).1.results.length ≤ 10 ∧
    (run_tests t rng).2.rows.length =
      t.rows.length + (run_tests t rng).1.results.length ∧
    (run_tests t rng).2.rows.length ≤ t.rows.length + 10 := by
  have hlen := run_tests_results_length_le t rng
  have hrows := (run_tests_results_eq t rng).2.1
  refine ⟨hlen, ?_, ?_⟩
  · rw [hrows, List.length_append]
  · rw [hrows, List.length_append]
    omega

/-- C4 counterexample: on an empty tests table run_tests produces exactly 3
outcomes (the fallback list is ["Test 1", "Test 2", "Test 3"]), not the
claimed 5. -/
theorem run_tests_empty_not_five :
    (run_tests emptyTests rngF).1.results.length = 3 ∧
    ¬ (run_tests emptyTests rngF).1.results.length = 5 := by
  have h3 : (run_tests emptyTests rngF).1.results.length = 3 := by
    rw [(run_tests_results_eq emptyTests rngF).1, genList_length]
    rfl
  exact ⟨h3, by omega⟩

/-- C4 (amended): when the tests table has no rows, run_tests falls back to
the fixed default list of 3 named tests ("Test 1", "Test 2", "Test 3") and
produces exactly 3 outcomes, one per default name. -/
theorem run_tests_empty_fallback_three (t : TestsTable) (rng : Nat → ℚ × Nat)
    (h : t.rows = []) :
    (run_tests t rng).1.results.length = 3 ∧
    (run_tests t rng).1.results.map (fun r => r.name) = defaultNames := by
  have hd : distinctNames t.rows = [] := by rw [h]; rfl
  have hr := (run_tests_results_eq t rng).1
  rw [hd] at hr
  have hif : (if ([] : List String) = [] then defaultNames else ([] : List String)) =
      defaultNames := rfl
  rw [hif] at hr
  constructor
  · rw [hr, genList_length]
    rfl
  · rw [hr, genList_map_name]
    rfl

/-- C4 witness: the amended theorem instantiated at the empty table. -/
theorem run_tests_empty_fallback_three_witness :
    emptyTests.rows = [] ∧ (run_tests emptyTests rngW).1.results.length = 3 :=
  ⟨rfl, (run_tests_empty_fallback_three emptyTests rngW rfl).1⟩

/-- C5: run_tests only appends rows; outcome i is "passed" exactly when the
i-th draw exceeds 0.1, with duration in [100, 600] ms when passed and
[3000, 5000] ms when failed; the summary message reports the exact passed
and failed counts of the results. -/
theorem run_tests_outcomes (t : TestsTable) (rng : Nat → ℚ × Nat) :
    (run_tests t rng).2.rows = t.rows ++ (run_tests t rng).1.results ∧
    (∀ i, ∀ hi : i < (run_tests t rng).1.results.length,
      (((run_tests t rng).1.results.get ⟨i, hi⟩).status =
          if (rng i).1 > 1/10 then ("passed") else ("failed")) ∧
      (if (rng i).1 > 1/10
       then 100 ≤ ((run_tests t rng).1.results.get ⟨i, hi⟩).duration ∧
            ((run_tests t rng).1.results.get ⟨i, hi⟩).duration ≤ 600
       else 3000 ≤ ((run_tests t rng).1.results.get ⟨i, hi⟩).duration ∧
            ((run_tests t rng).1.results.get ⟨i, hi⟩).duration ≤ 5000)) ∧
    (run_tests t rng).1.message =
      mkMessage (run_tests t rng).1.results.length
        (countStatus ("passed") (run_tests t rng).1.results)
        (countStatus ("failed") (run_tests t rng).1.results) := by
  refine ⟨(run_tests_results_eq t rng).2.1, ?_, run_tests_message_eq t rng⟩
  intro i hi
  have hres := (run_tests_results_eq t rng).1
  have hi3 : i <
      ((if distinctNames t.rows = [] then defaultNames else distinctNames t.rows).take 10).length := by
    rw [← genList_length rng _ 0 t.nextId, ← hres]
    exact hi
  have hget : (run_tests t rng).1.results.get ⟨i, hi⟩ =
      mkRow (t.nextId + i)
        (((if distinctNames t.rows = [] then defaultNames else distinctNames t.rows).take 10).get
          ⟨i, hi3⟩)
        (rng (0 + i)) := by
    rw [List.get_of_eq hres ⟨i, hi⟩]
    exact genList_get rng _ 0 t.nextId i _ hi3
  rw [hget, Nat.zero_add]
  refine ⟨by simp only [mkRow], ?_⟩
  by_cases hc : (rng i).1 > 1/10
  · simp only [mkRow, if_pos hc]
    omega
  · simp only [mkRow, if_neg hc]
    omega

/-- C5 witness: the append-only clause of the theorem at a concrete state
and stream. -/
theorem run_tests_outcomes_witness :
    (run_tests loginTable rngW).2.rows =
      loginTable.rows ++ (run_tests loginTable rngW).1.results :=
  (run_tests_outcomes loginTable rngW).1

/-- C6: two runs of run_tests from the same storage state whose random
streams agree on the (at most 10) draws consumed produce identical
responses and identical resulting states. -/
theorem run_tests_deterministic (t : TestsTable) (rng1 rng2 : Nat → ℚ × Nat)
    (h : ∀ i, i < 10 → rng1 i = rng2 i) :
    run_tests t rng1 = run_tests t rng2 := by
  have hlen : ((if distinctNames t.rows = [] then defaultNames
      else distinctNames t.rows).take 10).length ≤ 10 := by
    rw [List.length_take]
    exact min_le_left _ _
  have hg := genList_congr rng1 rng2
    ((if distinctNames t.rows = [] then defaultNames else distinctNames t.rows).take 10)
    0 t.nextId
    (fun i hi => by
      have hagree := h i (by omega)
      simpa using hagree)
  simp only [run_tests, runLoop_eq, hg]

/-- C6 witness: two concrete streams that agree on the first 10 indices and
differ afterwards give identical runs. -/
theorem run_tests_deterministic_witness :
    run_tests loginTable rngA10 = run_tests loginTable rngB10 :=
  run_tests_deterministic loginTable rngA10 rngB10
    (fun i hi => by simp [rngA10, rngB10, hi])

/-- C7: deleting a bug id or test-case id absent from its table reports the
404 NotFound outcome and returns the table unchanged. -/
theorem delete_missing_id_unchanged (b : BugsTable) (c : CasesTable) (i j : Nat)
    (hb : ∀ r ∈ b.rows, r.id ≠ i) (hc : ∀ r ∈ c.rows, r.id ≠ j) :
    delete_bug b i = (DeleteOutcome.notFound ("Bug not found"), b) ∧
    delete_test_case c j = (DeleteOutcome.notFound ("Test case not found"), c) :=
  ⟨delete_bug_missing b i hb, delete_case_missing c j hc⟩

/-- C7 witness: the theorem at concrete one-row tables and the absent id 99. -/
theorem delete_missing_id_unchanged_witness :
    (∀ r ∈ bugsW.rows, r.id ≠ 99) ∧
    delete_bug bugsW 99 = (DeleteOutcome.notFound ("Bug not found"), bugsW) :=
  ⟨by decide, (delete_missing_id_unchanged bugsW casesW 99 99 (by decide) (by decide)).1⟩

/-- C8 counterexample: the API surface registers no DELETE /api/tests/{id}
and no DELETE /api/tests route. -/
theorem no_delete_tests_route :
    (("DELETE", "/api/tests/{id}") ∉ routes) ∧ (("DELETE", "/api/tests") ∉ routes) := by
  decide

/-- C8 (amended): the only DELETE endpoints of the surface are
/api/bugs/{bug_id} and /api/test-cases/{case_id}; no DELETE route for the
tests table exists. -/
theorem delete_routes_only_bugs_and_cases :
    routes.filter (fun r => r.1 == "DELETE") =
      [(("DELETE"), ("/api/bugs/{bug_id}")), (("DELETE"), ("/api/test-cases/{case_id}"))] ∧
    (("DELETE"), ("/api/tests/{id}")) ∉ routes ∧ (("DELETE"), ("/api/tests")) ∉ routes := by
  decide

/-- C9: init_db is idempotent on every database state, and two consecutive
startups from a fresh database leave 5 tests, 2 bugs, 2 test_cases and 0
automation_reports rows. -/
theorem init_db_idempotent :
    (∀ db : DB, init_db (init_db db) = init_db db) ∧
    (init_db (init_db emptyDB)).tests.rows.length = 5 ∧
    (init_db (init_db emptyDB)).bugs.rows.length = 2 ∧
    (init_db (init_db emptyDB)).cases.rows.length = 2 ∧
    (init_db (init_db emptyDB)).reports.rows.length = 0 :=
  ⟨init_db_idem, rfl, rfl, rfl, rfl⟩

/-- C10: in every tests-table state reachable through the program's own
writers (seeding and run_tests), every row's status is "passed" or
"failed", and hence get_stats satisfies passed + failed = totalTests. -/
theorem tests_status_invariant (t : TestsTable) (h : ReachableTests t) :
    (∀ r ∈ t.rows, r.status = "passed" ∨ r.status = "failed") ∧
    (get_stats t).passed + (get_stats t).failed = (get_stats t).totalTests := by
  have hinv : ∀ r ∈ t.rows, r.status = "passed" ∨ r.status = "failed" := by
    induction h with
    | empty => intro r hr; simp at hr
    | seed t2 ht2 ih => exact seedTests_status_ok t2 ih
    | run t2 rng ht2 ih =>
      intro r hr
      rw [(run_tests_results_eq t2 rng).2.1] at hr
      rcases List.mem_append.mp hr with h1 | h2
      · exact ih r h1
      · exact run_tests_status_ok t2 rng r h2
  exact ⟨hinv, countStatus_passed_add_failed t.rows hinv⟩

/-- C10 witness: the theorem at the freshly seeded table. -/
theorem tests_status_invariant_witness :
    (∀ r ∈ (seedTests { rows := [], nextId := 1 }).rows,
      r.status = "passed" ∨ r.status = "failed") ∧
    (get_stats (seedTests { rows := [], nextId := 1 })).passed +
        (get_stats (seedTests { rows := [], nextId := 1 })).failed =
      (get_stats (seedTests { rows := [], nextId := 1 })).totalTests :=
  tests_status_invariant _ (ReachableTests.seed _ ReachableTests.empty)


end QAHub
